import Mathlib

/-!
Verification of the contact-management synchronization core.

This file embeds, as executable Lean definitions, the reconciliation logic of
`contacts/api.py` (`merge_contacts_with_conflict_resolution`) and the schema
mapping / remote client logic of `contacts/notion_client.py`
(`_map_contact_to_notion`, `_map_notion_to_contact`, `_clean_group_value`,
`_normalize_group_for_notion`, `_find_property_key`, `_get_property_value`,
`_get_linkedin_url`, `create_contact`, `update_contact`, and the retry loop of
`get_all_contacts`), and proves or refutes the specified properties of those
functions.

Modelling conventions:
* Python `None` / missing dict keys are `Option`/explicit `absent` constructors;
  Python truthiness on strings is `s ≠ ""` and on numbers `n ≠ 0`.
* Unix timestamps (Python floats from `time.time()` and
  `datetime.fromisoformat(..).timestamp()`) are modelled as `Int`: only their
  order is ever used.
* ISO-8601 timestamp parsing (`datetime.fromisoformat`) is an abstract
  parameter `parse : String → Option Int` (`none` models a raised
  `ValueError`); concrete instantiations only assign values that the real
  parser produces on the strings involved.
* Remote I/O is an oracle record; each embedded client method additionally
  returns the list of remote calls it performed, so that "no remote call is
  made" is a provable statement.
-/

/-! ### Reconciliation (`contacts/api.py`, `merge_contacts_with_conflict_resolution`)

A cached/remote contact dict is modelled by the fields the merge logic reads:
its `"id"`, its `"_notion_last_edited_time"`, and (for stating the literal
conflict scenarios) its `"status"`; all remaining dict content is collapsed
into an opaque `payload` string. -/

structure Contact where
  id : Option String
  status : Option String
  payload : String
  notionLastEditedTime : Option String
deriving DecidableEq

/-- Lookup in `{c["id"]: c for c in cached_contacts}`: Python dict comprehensions
keep the last entry for a duplicated key, hence the reversed search. -/
def lookupById (cached : List Contact) (cid : String) : Option Contact :=
  cached.reverse.find? (fun c => c.id == some cid)

/-- The timestamp comparison of `merge_contacts_with_conflict_resolution`:
given a truthy system-modification time `smt`, the cached version is kept when
the remote record carries no (or a falsy) `_notion_last_edited_time`, when
parsing it raises, or when `smt` is strictly greater than the parsed value. -/
def localWins (parse : String → Option Int) (smt : Int) (net : Option String) : Bool :=
  match net with
  | none => true
  | some s =>
    if s = "" then true
    else
      match parse s with
      | none => true
      | some nts => decide (nts < smt)

/-- One iteration of the merge loop of `merge_contacts_with_conflict_resolution`
for the remote record `nc`: the appended element is the cached version exactly
on the `continue` paths of the Python loop, and the remote version otherwise. -/
def mergeStep (parse : String → Option Int) (sysMod : String → Option Int)
    (cached : List Contact) (nc : Contact) : Contact :=
  match nc.id with
  | none => nc
  | some cid =>
    if cid = "" then nc
    else
      match sysMod cid with
      | none => nc
      | some smt =>
        if smt = 0 then nc
        else
          match lookupById cached cid with
          | none => nc
          | some c => if localWins parse smt nc.notionLastEditedTime then c else nc

/-- Embeds `merge_contacts_with_conflict_resolution(notion_contacts, cached_contacts)`
with `_system_modified_contacts = sysMod`.  Each loop iteration appends exactly
one record, so the loop is a `map`. -/
def mergeContacts (parse : String → Option Int) (sysMod : String → Option Int)
    (notionContacts : List Contact) (cachedContacts : Option (List Contact)) :
    List Contact :=
  match cachedContacts with
  | none => notionContacts
  | some cached => notionContacts.map (mergeStep parse sysMod cached)

/-- The id under which the merge loop consults `_system_modified_contacts` and
`cached_map`; `none` for records that the loop passes through unexamined
(missing or falsy `"id"`). -/
def effectiveId (c : Contact) : Option String :=
  match c.id with
  | none => none
  | some cid => if cid = "" then none else some cid

def effectiveIds (l : List Contact) : List String := l.filterMap effectiveId

/-- The condition of the specification under which the local (cached) version
must win the reconciliation, as a proposition: no remote-edit timestamp (or a
falsy one), an unparsable one, or one strictly older than the local edit. -/
def LocalWinsProp (parse : String → Option Int) (smt : Int) (net : Option String) : Prop :=
  net = none ∨ net = some "" ∨
    (∃ s, net = some s ∧ s ≠ "" ∧ parse s = none) ∨
    (∃ s t, net = some s ∧ s ≠ "" ∧ parse s = some t ∧ t < smt)

/-- Concrete timestamp table used in the literal scenarios: the values
`datetime.fromisoformat` yields on these exact ISO-8601 strings (seconds since
epoch 50, 100 and 150). -/
def isoParse : String → Option Int
  | "1970-01-01T00:00:50+00:00" => some 50
  | "1970-01-01T00:01:40+00:00" => some 100
  | "1970-01-01T00:02:30+00:00" => some 150
  | _ => none

/-- The map `_system_modified_contacts = {"A": 100}`. -/
def smA : String → Option Int := fun i => if i = "A" then some 100 else none

/-- The cached record of the literal scenario: id "A", status "contacted". -/
def cachedA : Contact :=
  { id := some "A", status := some "contacted", payload := "", notionLastEditedTime := none }

/-- Remote snapshot record for "A" with status "queued", remote edit time 50. -/
def remoteA50 : Contact :=
  { id := some "A", status := some "queued", payload := "",
    notionLastEditedTime := some "1970-01-01T00:00:50+00:00" }

/-- Remote snapshot record for "A" with status "queued", remote edit time 150. -/
def remoteA150 : Contact :=
  { id := some "A", status := some "queued", payload := "",
    notionLastEditedTime := some "1970-01-01T00:02:30+00:00" }

/-! ### Character-level string helpers

Python string methods (`strip`, `lower`, `upper`, `startswith`, `split`,
`join`, `replace` of single characters) are embedded as character-list
functions with the same semantics. -/

def pyLower (s : String) : String := String.mk (s.toList.map Char.toLower)

def pyUpper (s : String) : String := String.mk (s.toList.map Char.toUpper)

/-- Python `str.strip()` with no argument: drop whitespace on both ends. -/
def pyStrip (s : String) : String :=
  String.mk (((s.toList.dropWhile Char.isWhitespace).reverse.dropWhile
    Char.isWhitespace).reverse)

/-- Python `s.startswith(p)`. -/
def pyStartsWith (s p : String) : Bool := p.toList.isPrefixOf s.toList

/-- Python `s.replace(a, b)` for single characters. -/
def mapChars (f : Char → Char) (s : String) : String := String.mk (s.toList.map f)

def splitCharAux (c : Char) : List Char → List Char → List (List Char)
  | [], cur => [cur.reverse]
  | x :: rest, cur =>
    if x = c then cur.reverse :: splitCharAux c rest []
    else splitCharAux c rest (x :: cur)

/-- Python `s.split(",")`. -/
def pySplitComma (s : String) : List String :=
  (splitCharAux ',' s.toList []).map String.mk

def wsSplitAux : List Char → List Char → List String
  | [], cur => if cur.isEmpty then [] else [String.mk cur.reverse]
  | x :: rest, cur =>
    if x.isWhitespace then
      if cur.isEmpty then wsSplitAux rest []
      else String.mk cur.reverse :: wsSplitAux rest []
    else wsSplitAux rest (x :: cur)

/-- Python `s.split()` with no argument: split on whitespace runs, no empty
pieces. -/
def pySplitWhitespace (s : String) : List String := wsSplitAux s.toList []

/-- Python `sep.join(pieces)`. -/
def joinWith (sep : String) : List String → String
  | [] => ""
  | [x] => x
  | x :: rest => x ++ sep ++ joinWith sep rest

/-! ### Notion property bags (`contacts/notion_client.py`)

A Notion property is a loosely-shaped dict; the embedding gives each key the
mapper ever reads an `Option` field, `none` meaning the key is absent.  A page
property bag is an ordered association list with distinct keys (Python dict
semantics, modelled by `bagInsert`). -/

/-- The `{"url": ...}` object inside a rich-text run's link. -/
structure LinkObj where
  url : Option String := none
deriving DecidableEq

/-- The `{"content": ..., "link": ..., "href": ...}` object under a rich-text
element's `"text"` key. The outer `Option` on `link` is key presence, the
inner one the (possibly `None`) value. -/
structure TextObj where
  content : Option String := none
  link : Option (Option LinkObj) := none
  href : Option String := none
deriving DecidableEq

/-- One element of a `"title"` / `"rich_text"` array. `href` at top level
again distinguishes key presence (outer) from a `None` value (inner). -/
structure RichTextElem where
  text : Option TextObj := none
  href : Option (Option String) := none
  plain_text : Option String := none
deriving DecidableEq

/-- The `{"name": ...}` object of a select/status value. -/
structure SelectObj where
  name : Option String := none
deriving DecidableEq

/-- The `{"start": ...}` object of a date value. -/
structure DateObj where
  start : Option String := none
deriving DecidableEq

/-- A formula result object; each field is present iff the corresponding key
is in the dict, with a possibly-`None` value inside. -/
structure FormulaObj where
  number : Option (Option Int) := none
  string : Option (Option String) := none
  date : Option (Option DateObj) := none
deriving DecidableEq

/-- One Notion property value, as the union of the dict keys the mapper reads.
`type` is the `"type"` tag Notion attaches to properties it returns; bags
built locally by `_map_contact_to_notion` carry no tag. -/
structure NProp where
  type : Option String := none
  title : Option (List RichTextElem) := none
  rich_text : Option (List RichTextElem) := none
  email : Option String := none
  phone_number : Option String := none
  url : Option String := none
  select : Option SelectObj := none
  status : Option SelectObj := none
  formula : Option FormulaObj := none
  date : Option DateObj := none
  number : Option Int := none
  checkbox : Option Bool := none
deriving DecidableEq

def Bag : Type := List (String × NProp)

instance : DecidableEq Bag := inferInstanceAs (DecidableEq (List (String × NProp)))

/-- Reads `properties[key]` for a dict built with distinct keys. -/
def bagFind : Bag → String → Option NProp
  | [], _ => none
  | (k', v) :: rest, k => if k' = k then some v else bagFind rest k

/-- Assignment `properties[key] = value`: replace in place if the key exists, else append
(Python dict assignment). -/
def bagInsert : Bag → String → NProp → Bag
  | [], k, v => [(k, v)]
  | (k', v') :: rest, k, v =>
    if k' = k then (k, v) :: rest else (k', v') :: bagInsert rest k v

/-- Lookup in `{k.lower(): k for k in properties.keys()}`: last key wins on a
lower-case collision, hence the reversed search. -/
def lowerLookup (props : Bag) (lk : String) : Option String :=
  (props.map Prod.fst).reverse.find? (fun k => pyLower k == lk)

/-- Embeds `_find_property_key`: exact match over the candidate names first, then a
case-insensitive match. -/
def findPropertyKey (props : Bag) (possibleKeys : List String) : Option String :=
  match possibleKeys.find? (fun k => (bagFind props k).isSome) with
  | some k => some k
  | none =>
    match possibleKeys.find? (fun k => (lowerLookup props (pyLower k)).isSome) with
    | some k => lowerLookup props (pyLower k)
    | none => none

/-- A Python scalar produced by `_get_property_value` (formulas can yield a
number or a string). -/
inductive PyVal where
  | str (s : String)
  | int (n : Int)
  | bool (b : Bool)
deriving DecidableEq

/-- Python `in` on lists of characters, for `needle in haystack` on strings. -/
def charsInfix (needle hay : List Char) : Bool :=
  match hay with
  | [] => needle.isEmpty
  | _ :: t => needle.isPrefixOf hay || charsInfix needle t

def strContains (hay needle : String) : Bool := charsInfix needle.toList hay.toList

/-- Python `group_value.strip().rstrip(')')`: drop every trailing `)`. -/
def rstripParens (s : String) : String :=
  String.mk ((s.toList.reverse.dropWhile (fun c => c = ')')).reverse)

def groupMapRead : List (String × String) :=
  [("fam", "fam"), ("family", "fam"), ("mck", "McK"), ("mckinsey", "McK"),
   ("mckinsey)", "McK"), ("pea", "PEA"), ("phillips exeter academy", "PEA"),
   ("exeter", "PEA"), ("gu", "GU"), ("georgetown", "GU"),
   ("georgetown university", "GU"), ("bp", "BP"), ("berkshire partners", "BP"),
   ("berkshire", "BP"), ("mba", "MBA"), ("mvnx", "MVNX"), ("mavnox", "MVNX"),
   ("other", "other")]

/-- Embeds `_clean_group_value` (read direction): strip trailing parentheses, then an
exact lookup, then a bidirectional-substring partial match, else pass through
the cleaned value. -/
def cleanGroupValue (groupValue : Option String) : Option String :=
  match groupValue with
  | none => none
  | some g =>
    if g = "" then none
    else
      let cleaned := pyStrip (rstripParens (pyStrip g))
      if cleaned = "" then none
      else
        let cl := pyLower cleaned
        match groupMapRead.lookup cl with
        | some v => some v
        | none =>
          match groupMapRead.find?
              (fun kv => strContains cl kv.1 || strContains kv.1 cl) with
          | some kv => some kv.2
          | none => some cleaned

def groupMapWrite : List (String × String) :=
  [("fam", "Fam"), ("family", "Fam"), ("mck", "McK"), ("mckinsey", "McK"),
   ("pea", "PEA"), ("phillips exeter academy", "PEA"), ("exeter", "PEA"),
   ("gu", "GU"), ("georgetown", "GU"), ("georgetown university", "GU"),
   ("bp", "BP"), ("berkshire partners", "BP"), ("berkshire", "BP"),
   ("mba", "MBA"), ("mvnx", "MVNX"), ("mavnox", "MVNX"), ("other", "Other")]

/-- Python `str.title()` on ASCII: upper-case each letter that does not follow
a letter, lower-case the rest. -/
def pyTitleAux : List Char → Bool → List Char
  | [], _ => []
  | c :: rest, prevAlpha =>
    (if c.isAlpha then (if prevAlpha then c.toLower else c.toUpper) else c) ::
      pyTitleAux rest c.isAlpha

def pyTitleCase (s : String) : String := String.mk (pyTitleAux s.toList false)

/-- Embeds `_normalize_group_for_notion` (write direction): exact lookup, then the
partial match, else capitalize the first character only. -/
def normalizeGroupForNotion (groupValue : Option String) : Option String :=
  match groupValue with
  | none => none
  | some g =>
    if g = "" then none
    else
      let cleaned := pyStrip g
      if cleaned = "" then none
      else
        let cl := pyLower cleaned
        match groupMapWrite.lookup cl with
        | some v => some v
        | none =>
          match groupMapWrite.find?
              (fun kv => strContains cl kv.1 || strContains kv.1 cl) with
          | some kv => some kv.2
          | none =>
            if cleaned.length > 1 then
              match cleaned.toList with
              | [] => some cleaned
              | c :: rest => some (String.mk (c.toUpper :: rest))
            else some (pyUpper cleaned)

/-! ### `_get_property_value`: per-kind scalar extraction -/

/-- The `"url"`-kind branch of `_get_property_value`, with its rich-text
fallback; a link key holding `None` raises `AttributeError`, which the
surrounding `except` turns into `None`. -/
def urlExtract (p : NProp) : Option String :=
  let urlValue := p.url
  let urlTruthy : Bool := match urlValue with | some u => u != "" | none => false
  if urlTruthy then urlValue
  else
    match p.rich_text.getD [] with
    | [] => urlValue
    | fe :: _ =>
      match fe.text with
      | some tobj =>
        match tobj.link with
        | some (some l) => l.url
        | some none => none
        | none =>
          match fe.href with
          | some v => v
          | none => urlValue
      | none =>
        match fe.href with
        | some v => v
        | none => urlValue

/-- The `"formula"`-kind branch: the result type depends on which key the
formula object carries, checked in the order number, string, date. -/
def formulaExtract (p : NProp) : Option PyVal :=
  match p.formula with
  | none => none
  | some fo =>
    match fo.number with
    | some v => v.map PyVal.int
    | none =>
      match fo.string with
      | some v => v.map PyVal.str
      | none =>
        match fo.date with
        | some (some d) => d.start.map PyVal.str
        | some none => none
        | none => none

/-- The `"rich_text_url"`-kind branch (present in the source, unused by its
callers). -/
def richTextUrlExtract (p : NProp) : Option String :=
  match p.rich_text.getD [] with
  | [] => none
  | fe :: _ =>
    match fe.text with
    | some tobj =>
      match tobj.link with
      | some (some l) => l.url
      | some none => none
      | none =>
        match fe.href with
        | some v => v
        | none => none
    | none =>
      match fe.href with
      | some v => v
      | none => none

/-- The type-dispatched body of `_get_property_value` for one property. -/
def extractValue (p : NProp) (propType : String) : Option PyVal :=
  if propType = "title" then
    some (PyVal.str (match p.title with
      | some (e :: _) => e.plain_text.getD ""
      | _ => ""))
  else if propType = "rich_text" then
    some (PyVal.str (match p.rich_text with
      | some (e :: _) => e.plain_text.getD ""
      | _ => ""))
  else if propType = "rich_text_url" then (richTextUrlExtract p).map PyVal.str
  else if propType = "email" then p.email.map PyVal.str
  else if propType = "phone_number" then p.phone_number.map PyVal.str
  else if propType = "url" then (urlExtract p).map PyVal.str
  else if propType = "select" then
    (match p.select with | some o => o.name | none => none).map PyVal.str
  else if propType = "status" then
    (match p.status with | some o => o.name | none => none).map PyVal.str
  else if propType = "formula" then formulaExtract p
  else if propType = "date" then
    (match p.date with
      | some d => match d.start with
        | some s => if s = "" then none else some s
        | none => none
      | none => none).map PyVal.str
  else if propType = "number" then p.number.map PyVal.int
  else if propType = "checkbox" then some (PyVal.bool (p.checkbox.getD false))
  else none

/-- Embeds `_get_property_value(properties, keys, prop_type)`. -/
def getPropertyValue (props : Bag) (keys : List String) (propType : String) :
    Option PyVal :=
  match findPropertyKey props keys with
  | none => none
  | some k =>
    match bagFind props k with
    | none => none
    | some p => extractValue p propType

/-- Wrapper over `_get_property_value` restricted to string results, as the contact mapper
consumes it for text-like kinds. -/
def getPVStr (props : Bag) (keys : List String) (propType : String) : Option String :=
  match getPropertyValue props keys propType with
  | some (PyVal.str s) => some s
  | _ => none

def getPVInt (props : Bag) (keys : List String) (propType : String) : Option Int :=
  match getPropertyValue props keys propType with
  | some (PyVal.int n) => some n
  | _ => none

/-! ### `_get_linkedin_url` -/

def linkedinReadKeys : List String :=
  ["Linkedin", "LinkedIn URL", "linkedin_url", "LinkedIn url", "LinkedIn"]

/-- The early-return checks of the rich-text loop in `_get_linkedin_url`: a
truthy link url on the element's text run, then a truthy `href` inside the
text object. -/
def richTextEarlyUrl (e : RichTextElem) : Option String :=
  match e.text with
  | none => none
  | some tobj =>
    let fromLink : Option String :=
      match tobj.link with
      | some (some l) =>
        (match l.url with
          | some u => if u = "" then none else some u
          | none => none)
      | _ => none
    match fromLink with
    | some u => some u
    | none =>
      match tobj.href with
      | some h => if h = "" then none else some h
      | none => none

/-- The rich-text loop of `_get_linkedin_url`: an early url return, or the
concatenation of all `plain_text` pieces. -/
def scanRichText : List RichTextElem → String → Option String × String
  | [], acc => (none, acc)
  | e :: rest, acc =>
    match richTextEarlyUrl e with
    | some u => (some u, acc)
    | none => scanRichText rest (acc ++ e.plain_text.getD "")

def containsLinkedin (s : String) : Bool := strContains (pyLower s) "linkedin.com"

/-- The decision on the accumulated plain text (both in the rich-text branch
and in the `_get_property_value` fallback of `_get_linkedin_url`): keep a
URL-looking value, prefix `https://` when it merely mentions linkedin.com,
else return the stripped text when long enough. `minLen` is 5 in the
rich-text branch and 0 in the fallback branch. -/
def linkedinFromText (ft : String) (minLen : Nat) : Option String :=
  if pyStartsWith ft "http://" || pyStartsWith ft "https://" then some ft
  else if containsLinkedin ft then
    some (if pyStartsWith ft "http" then ft else "https://" ++ ft)
  else if ft ≠ "" && ft.length > minLen then some ft
  else none

/-- Embeds `_get_linkedin_url(properties)`. -/
def getLinkedinUrl (props : Bag) : Option String :=
  match findPropertyKey props linkedinReadKeys with
  | none => none
  | some key =>
    match bagFind props key with
    | none => none
    | some prop =>
      let ptype := prop.type
      let step1 : Option String :=
        if ptype = some "url" then
          match prop.url with
          | some u => if u = "" then none else some u
          | none => none
        else none
      match step1 with
      | some u => some u
      | none =>
        let step2 : Option String :=
          if ptype = some "rich_text" then
            match prop.rich_text.getD [] with
            | [] => none
            | arr =>
              match scanRichText arr "" with
              | (some u, _) => some u
              | (none, fullText) =>
                if fullText = "" then none
                else linkedinFromText (pyStrip fullText) 5
          else none
        match step2 with
        | some u => some u
        | none =>
          let step3 : Option String :=
            match extractValue prop "rich_text" with
            | some (PyVal.str tv) =>
              if tv = "" then none else linkedinFromText (pyStrip tv) 0
            | _ => none
          match step3 with
          | some u => some u
          | none =>
            let step4 : Option String :=
              if ptype = some "formula" then
                match prop.formula with
                | some fo =>
                  match fo.string with
                  | some (some s) =>
                    if s ≠ "" && (containsLinkedin s || pyStartsWith s "http") then
                      some s
                    else none
                  | _ => none
                | none => none
              else none
            match step4 with
            | some u => some u
            | none =>
              match urlExtract prop with
              | some u => if u = "" then none else some u
              | none => none

/-! ### `_map_notion_to_contact` -/

/-- Python `.replace(" ", "_")`. -/
def replaceSpacesWithUnderscores (s : String) : String :=
  mapChars (fun c => if c = ' ' then '_' else c) s

def statusMapRead : List (String × String) :=
  [("Done", "done"), ("Scheduled", "scheduled"), ("Circle Back", "circle_back"),
   ("Circle back", "circle_back"), ("Need to contact", "need_to_contact"),
   ("need to contact", "need_to_contact"), ("Contacted", "contacted"),
   ("Queued", "queued"), ("Wait", "wait"), ("Ghosted", "ghosted")]

/-- Status normalization in `_map_notion_to_contact`: table lookup, else
lower-case with underscores for truthy values outside the table. -/
def normalizeStatusRead (raw : Option String) : Option String :=
  match raw with
  | none => none
  | some s =>
    if s ≠ "" && (statusMapRead.lookup s).isNone then
      some (replaceSpacesWithUnderscores (pyLower s))
    else statusMapRead.lookup s

def typeMapRead : List (String × String) :=
  [("Existing", "existing"), ("2026 New", "2026_new"), ("2026_new", "2026_new")]

/-- Type normalization in `_map_notion_to_contact`:
`type_map.get(raw_type, raw_type.lower() if raw_type else None)`. -/
def normalizeTypeRead (raw : Option String) : Option String :=
  match raw with
  | none => none
  | some s =>
    match typeMapRead.lookup s with
    | some v => some v
    | none => if s = "" then none else some (pyLower s)

/-- First/last-name derivation of `_map_notion_to_contact`: "Last, First ..."
when a comma is present, else "First Last ...". -/
def parseNames (contactName : String) : Option String × Option String :=
  if contactName ≠ "" ∧ pyLower contactName ≠ "unnamed contact" then
    let nameStr := pyStrip contactName
    match pySplitComma nameStr with
    | [] => (none, none)
    | [single] =>
      match pySplitWhitespace single with
      | [] => (none, none)
      | [p] => (some p, none)
      | p :: ps => (some p, some (joinWith " " ps))
    | last :: restPieces =>
      let rest := joinWith "," restPieces
      match pySplitWhitespace (pyStrip rest) with
      | [] => (none, none)
      | p :: _ => (some p, if pyStrip last = "" then none else some (pyStrip last))
  else (none, none)

/-- The canonical contact produced by `_map_notion_to_contact`: every key of
the returned dict, with `Option` for possibly-`None` values. -/
structure ContactOut where
  id : Option String
  name : String
  first_name : Option String
  last_name : Option String
  email : Option String
  phone : Option String
  status : Option String
  type : Option String
  group : Option String
  relationship_type : Option String
  title : Option String
  company : Option String
  industry : Option String
  location : Option String
  linkedin_url : Option String
  last_contact_date : Option String
  days_at_current_status : Option PyVal
  call_count : Int
  notes : Option String
  created_date : Option String
  next_followup_date : Option String
  notionLastEditedTime : Option String
deriving DecidableEq

/-- A Notion page as consumed by `_map_notion_to_contact`: its `"id"`, its
top-level `"last_edited_time"` (when the key is present), and its
`"properties"` dict. -/
structure Page where
  id : Option String
  last_edited_time : Option String
  properties : Bag

/-- Embeds `_map_notion_to_contact(notion_page)`. -/
def mapNotionToContact (page : Page) : ContactOut :=
  let props := page.properties
  let rawStatus := getPVStr props ["Status", "status"] "status"
  let rawType := getPVStr props ["Type", "type"] "status"
  let rawName := getPVStr props ["Contact", "Name", "name"] "title"
  let contactName :=
    match rawName with
    | some s => if s = "" then "Unnamed Contact" else pyStrip s
    | none => "Unnamed Contact"
  let names := parseNames contactName
  { id := page.id
    name := contactName
    first_name := names.1
    last_name := names.2
    email := getPVStr props ["Email", "email"] "rich_text"
    phone := getPVStr props ["Phone", "phone"] "phone_number"
    status := normalizeStatusRead rawStatus
    type := normalizeTypeRead rawType
    group := cleanGroupValue (getPVStr props ["Group", "group"] "status")
    relationship_type :=
      getPVStr props ["Relationship Type", "relationship_type", "Relationship type"] "status"
    title := getPVStr props ["Role", "role", "Title", "title"] "rich_text"
    company := getPVStr props ["Company", "company"] "rich_text"
    industry := getPVStr props ["Industry", "industry"] "rich_text"
    location := getPVStr props ["Location", "location"] "rich_text"
    linkedin_url := getLinkedinUrl props
    last_contact_date :=
      getPVStr props ["Last contact date", "Last Contact Date", "last_contact_date"] "date"
    days_at_current_status :=
      getPropertyValue props
        ["Days", "Days at current status", "Days At Current Status",
         "days_at_current_status"] "formula"
    call_count :=
      (getPVInt props ["Count", "Call Count", "call_count"] "number").getD 0
    notes := getPVStr props ["Notes", "notes"] "rich_text"
    created_date :=
      getPVStr props ["Created date", "Created Date", "created_date"] "date"
    next_followup_date :=
      getPVStr props ["Next followup date", "Next Followup Date", "next_followup_date"] "date"
    notionLastEditedTime := page.last_edited_time }

/-! ### `_map_contact_to_notion` -/

/-- A possibly-present, possibly-`None` string entry of the contact dict
handed to the client (`absent`: key not in the dict; `pynone`: key present
with value `None`). -/
inductive DStr where
  | absent
  | pynone
  | val (s : String)
deriving DecidableEq

/-- Same for the integer field `call_count` / `days_at_current_status`. -/
inductive DInt where
  | absent
  | pynone
  | int (n : Int)
deriving DecidableEq

/-- The contact dict consumed by `_map_contact_to_notion`, `create_contact`
and `update_contact`, with one tri-state entry per field the mapper reads.
Date values are strings here, as the API layer supplies them
(`ContactCreate`/`ContactUpdate` type them `Optional[str]`). -/
structure ContactDict where
  name : DStr := .absent
  email : DStr := .absent
  phone : DStr := .absent
  status : DStr := .absent
  type : DStr := .absent
  group : DStr := .absent
  relationship_type : DStr := .absent
  title : DStr := .absent
  company : DStr := .absent
  industry : DStr := .absent
  location : DStr := .absent
  linkedin_url : DStr := .absent
  notes : DStr := .absent
  followup_context : DStr := .absent
  call_count : DInt := .absent
  days_at_current_status : DInt := .absent
  last_contact_date : DStr := .absent
  created_date : DStr := .absent
  next_followup_date : DStr := .absent
deriving DecidableEq

/-- Python truthiness of a dict entry: present with a non-empty string. -/
def truthyDStr : DStr → Bool
  | .val s => s != ""
  | _ => false

/-- The run `{"text": {"content": str(v)}}`: a rich-text run as the writer builds it
(no `plain_text`, no link). -/
def mkText (s : String) : RichTextElem :=
  { text := some { content := some s, link := none, href := none },
    href := none, plain_text := none }

def titleProp (s : String) : NProp := { title := some [mkText s] }

def richTextProp (s : String) : NProp := { rich_text := some [mkText s] }

def phoneProp (s : String) : NProp := { phone_number := some s }

def statusNameProp (s : String) : NProp := { status := some { name := some s } }

def dateStartProp (s : String) : NProp := { date := some { start := some s } }

def numberProp (n : Int) : NProp := { number := some n }

/-- Embeds `_get_notion_property_name`: the key already in the existing schema, else
the first candidate. -/
def getNotionPropertyName (existing : Bag) (possibleNames : List String) : String :=
  match findPropertyKey existing possibleNames with
  | some k => k
  | none => possibleNames.headD ""

def statusMapWrite : List (String × String) :=
  [("wait", "Wait"), ("queued", "Queued"), ("queue", "Queue"),
   ("need_to_contact", "Need to Contact"), ("contacted", "Contacted"),
   ("circle_back", "Circle Back"), ("scheduled", "Scheduled"),
   ("done", "Done"), ("ghosted", "Ghosted")]

/-- Embeds `normalize_status_to_notion` for a truthy value (the writer only applies
it to non-blank strings): table lookup, else underscores to spaces and
`str.title()`. -/
def normalizeStatusToNotion (v : String) : String :=
  match statusMapWrite.lookup v with
  | some w => w
  | none => pyTitleCase (mapChars (fun c => if c = '_' then ' ' else c) v)

/-- Embeds `normalize_type_to_notion` for a truthy value. -/
def normalizeTypeToNotion (v : String) : String :=
  if v = "2026_new" then "2026 New"
  else if v = "existing" then "Existing"
  else v

/-- One `field_mappings` iteration for a string-valued field: skipped when the
key is absent, the value `None`, or the value blank after `strip()`; the
per-field lambda `mk` builds the Notion property.  (The extra empty-check on
`phone_number` entries can never fire after the blank skip.) -/
def writeStrField (v : DStr) (existing : Bag) (names : List String)
    (mk : String → NProp) (b : Bag) : Bag :=
  match v with
  | .absent => b
  | .pynone => b
  | .val s =>
    if pyStrip s = "" then b
    else bagInsert b (getNotionPropertyName existing names) (mk s)

/-- The `call_count` iteration: ints have no blank skip, only the
`is not None` guard. -/
def writeIntField (v : DInt) (existing : Bag) (names : List String) (b : Bag) : Bag :=
  match v with
  | .absent => b
  | .pynone => b
  | .int n => bagInsert b (getNotionPropertyName existing names) (numberProp n)

/-- One `date_mappings` iteration: requires a truthy value, then skips blank
strings; string dates are written as `{"date": {"start": value}}`. -/
def writeDateField (v : DStr) (existing : Bag) (names : List String) (b : Bag) : Bag :=
  match v with
  | .absent => b
  | .pynone => b
  | .val s =>
    if s = "" then b
    else if pyStrip s = "" then b
    else bagInsert b (getNotionPropertyName existing names) (dateStartProp s)

/-- The `name` entry: written whenever the key is present, with `str(...)` of
the value (`str(None)` is the string "None"); no blank skip. -/
def writeNameField (v : DStr) (existing : Bag) (b : Bag) : Bag :=
  match v with
  | .absent => b
  | .pynone =>
    bagInsert b (getNotionPropertyName existing ["Contact", "Name", "name"]) (titleProp "None")
  | .val s =>
    bagInsert b (getNotionPropertyName existing ["Contact", "Name", "name"]) (titleProp s)

/-- Embeds `_map_contact_to_notion(contact, existing_properties)`: the name entry,
then the `field_mappings` loop, then the `date_mappings` loop, in source
order.  `days_at_current_status` is deliberately not written (formula,
read-only). -/
def mapContactToNotion (contact : ContactDict) (existing : Bag) : Bag :=
  let b : Bag := []
  let b := writeNameField contact.name existing b
  let b := writeStrField contact.email existing ["Email", "email"] richTextProp b
  let b := writeStrField contact.phone existing ["Phone", "phone"] phoneProp b
  let b := writeStrField contact.status existing ["Status", "status"]
    (fun s => statusNameProp (normalizeStatusToNotion s)) b
  let b := writeStrField contact.type existing ["Type", "type"]
    (fun s => statusNameProp (normalizeTypeToNotion s)) b
  let b := writeStrField contact.group existing ["Group", "group"]
    (fun s => statusNameProp ((normalizeGroupForNotion (some s)).getD "")) b
  let b := writeStrField contact.relationship_type existing
    ["Relationship Type", "relationship_type"] statusNameProp b
  let b := writeStrField contact.title existing ["Role", "role", "Title", "title"]
    richTextProp b
  let b := writeStrField contact.company existing ["Company", "company"] richTextProp b
  let b := writeStrField contact.industry existing ["Industry", "industry"] richTextProp b
  let b := writeStrField contact.location existing ["Location", "location"] richTextProp b
  let b := writeStrField contact.linkedin_url existing
    ["Linkedin", "LinkedIn URL", "linkedin_url", "LinkedIn"] richTextProp b
  let b := writeStrField contact.notes existing ["Notes", "notes"] richTextProp b
  let b := writeStrField contact.followup_context existing
    ["Followup context", "followup_context"] richTextProp b
  let b := writeIntField contact.call_count existing
    ["Count", "Call Count", "call_count"] b
  let b := writeDateField contact.last_contact_date existing
    ["Last contact date", "Last Contact Date", "last_contact_date"] b
  let b := writeDateField contact.created_date existing
    ["Created date", "Created Date", "created_date"] b
  let b := writeDateField contact.next_followup_date existing
    ["Next followup date", "Next Followup Date", "next_followup_date"] b
  b

/-- Composition `toCanonical(toExternal(r, {}))`: the writer's bag, wrapped as a page with
no metadata, fed to the reader. -/
def roundTrip (r : ContactDict) : ContactOut :=
  mapNotionToContact
    { id := none, last_edited_time := none, properties := mapContactToNotion r [] }

/-! ### Remote client (`NotionContactClient`): create, update, retry, bulk map -/

/-- A failure of a remote call: `api` is an `APIResponseError` with its code,
`exn` any other exception. -/
inductive ApiError where
  | api (code : String) (msg : String)
  | exn (msg : String)
deriving DecidableEq

/-- An error escaping a client method: a raised `ValueError` or a propagated
remote failure. -/
inductive PyErr where
  | valueError (msg : String)
  | remote (e : ApiError)
deriving DecidableEq

/-- One remote HTTP call performed by a client method. -/
inductive RemoteCall where
  | retrieveDatabase
  | createPage
  | retrievePage
  | updatePage
deriving DecidableEq

/-- The behaviour of the remote store for one client-method execution:
`retrieveDatabase` yields the schema's property dict (only its keys are used),
the page calls yield pages. -/
structure RemoteOracle where
  retrieveDatabase : Except ApiError Bag
  createPage : Bag → Except ApiError Page
  retrievePage : String → Except ApiError Page
  updatePage : String → Bag → Except ApiError Page

/-- The default-filling prologue of `create_contact`: status "queued", today's
date and zero days at status, each only when the key is absent. -/
def createDefaults (today : String) (c : ContactDict) : ContactDict :=
  { c with
    status := match c.status with | .absent => .val "queued" | x => x
    created_date := match c.created_date with | .absent => .val today | x => x
    days_at_current_status :=
      match c.days_at_current_status with | .absent => .int 0 | x => x }

/-- Embeds `create_contact(contact)`: local validation, defaults, one schema fetch
(an `APIResponseError` there degrades to an empty schema; any other exception
propagates), the page creation, and the read-back mapping.  The second
component lists the remote calls performed. -/
def createContact (api : RemoteOracle) (today : String) (contact : ContactDict) :
    Except PyErr ContactOut × List RemoteCall :=
  if truthyDStr contact.name = false then
    (Except.error (PyErr.valueError "Name is required"), [])
  else if truthyDStr contact.email = false && truthyDStr contact.phone = false then
    (Except.error (PyErr.valueError "At least one of email or phone is required"), [])
  else
    let c := createDefaults today contact
    match api.retrieveDatabase with
    | Except.error (ApiError.exn m) =>
      (Except.error (PyErr.remote (ApiError.exn m)), [RemoteCall.retrieveDatabase])
    | res =>
      let existingProps : Bag := match res with | Except.ok db => db | _ => []
      let props := mapContactToNotion c existingProps
      match api.createPage props with
      | Except.ok page =>
        (Except.ok (mapNotionToContact page),
          [RemoteCall.retrieveDatabase, RemoteCall.createPage])
      | Except.error (ApiError.api _ msg) =>
        (Except.error (PyErr.valueError ("Failed to create contact in Notion: " ++ msg)),
          [RemoteCall.retrieveDatabase, RemoteCall.createPage])
      | Except.error (ApiError.exn msg) =>
        (Except.error (PyErr.valueError ("Failed to create contact: " ++ msg)),
          [RemoteCall.retrieveDatabase, RemoteCall.createPage])

/-- Embeds `update_contact(contact_id, contact)`: fetch the existing page (not-found
becomes a `ValueError`, other failures propagate), map the supplied fields
against its property names, reject an empty property dict, else perform the
update and map the result back. -/
def updateContact (api : RemoteOracle) (contactId : String) (contact : ContactDict) :
    Except PyErr ContactOut × List RemoteCall :=
  match api.retrievePage contactId with
  | Except.error (ApiError.api code msg) =>
    if code = "object_not_found" then
      (Except.error (PyErr.valueError ("Contact " ++ contactId ++ " not found")),
        [RemoteCall.retrievePage])
    else
      (Except.error (PyErr.remote (ApiError.api code msg)), [RemoteCall.retrievePage])
  | Except.error (ApiError.exn m) =>
    (Except.error (PyErr.remote (ApiError.exn m)), [RemoteCall.retrievePage])
  | Except.ok page =>
    let props := mapContactToNotion contact page.properties
    if props.isEmpty then
      (Except.error (PyErr.valueError "No properties to update"), [RemoteCall.retrievePage])
    else
      match api.updatePage contactId props with
      | Except.ok page2 =>
        (Except.ok (mapNotionToContact page2),
          [RemoteCall.retrievePage, RemoteCall.updatePage])
      | Except.error (ApiError.api code msg) =>
        if code = "object_not_found" then
          (Except.error (PyErr.valueError ("Contact " ++ contactId ++ " not found")),
            [RemoteCall.retrievePage, RemoteCall.updatePage])
        else
          (Except.error
            (PyErr.valueError ("Failed to update contact in Notion: " ++ msg)),
            [RemoteCall.retrievePage, RemoteCall.updatePage])
      | Except.error (ApiError.exn msg) =>
        (Except.error (PyErr.valueError ("Failed to update contact: " ++ msg)),
          [RemoteCall.retrievePage, RemoteCall.updatePage])

/-- The per-page retry loop of `get_all_contacts`: `oracle a` is the outcome
of the query on attempt number `a` (0-based); `remaining` counts the attempts
left out of `max_retries`.  Every exception is caught; a non-final failure
sleeps `(attempt + 1)` seconds and retries, the final one re-raises.  The
result carries the sleep durations and the number of calls made. -/
def retryLoop {α : Type} (oracle : Nat → Except ApiError α) :
    Nat → Nat → Except ApiError α × List Nat × Nat
  | _, 0 => (Except.error (ApiError.exn "no attempts"), [], 0)
  | attempt, n + 1 =>
    match oracle attempt with
    | Except.ok r => (Except.ok r, [], 1)
    | Except.error e =>
      if n = 0 then (Except.error e, [], 1)
      else
        let rest := retryLoop oracle (attempt + 1) n
        (rest.1, (attempt + 1) :: rest.2.1, rest.2.2 + 1)

/-- One `databases.query` of `get_all_contacts` with its retry logic
(`max_retries` defaults to 3 in the source). -/
def queryWithRetry {α : Type} (oracle : Nat → Except ApiError α)
    (maxRetries : Nat) : Except ApiError α × List Nat × Nat :=
  retryLoop oracle 0 maxRetries

/-- The per-record mapping loop of `get_all_contacts`: records whose
translation raises are logged and skipped, never propagated. -/
def collectContacts (translate : Page → Except String ContactOut)
    (results : List Page) : List ContactOut :=
  results.filterMap (fun p => (translate p).toOption)

/-! ### Round-trip facts for the mapper composition (claim C4) -/

/-- The full record used in the round-trip scenarios. -/
def contactFull : ContactDict :=
  { name := .val "Alice", email := .val "alice@example.com", phone := .val "555-0101",
    status := .val "queued", type := .val "existing", group := .val "McK",
    relationship_type := .val "advisor", title := .val "Engineer",
    call_count := .int 3, last_contact_date := .val "2025-01-02",
    created_date := .val "2024-12-31", next_followup_date := .val "2025-02-03" }

/-- A record with just a name and an email. -/
def contactAlice : ContactDict :=
  { name := .val "Alice", email := .val "alice@example.com" }

/-! ### Blank names (claim C7) -/

/-- A real remote page whose title property holds a single whitespace
character (as Notion returns it, with the type tag and `plain_text`). -/
def whitespaceNamePage : Page :=
  { id := some "P1", last_edited_time := none,
    properties :=
      [("Name", { type := some "title",
                  title := some [{ plain_text := some " " }] })] }

/-! ### Validation and update rejection (claims C5, C10) -/

/-- A record with a name but neither email nor phone. -/
def nameOnlyContact : ContactDict := { name := .val "Bob" }

/-- An oracle on which every remote call fails: if a rejected create consults
it, the trace shows it. -/
def unreachableOracle : RemoteOracle :=
  { retrieveDatabase := Except.error (ApiError.exn "unreachable")
    createPage := fun _ => Except.error (ApiError.exn "unreachable")
    retrievePage := fun _ => Except.error (ApiError.exn "unreachable")
    updatePage := fun _ _ => Except.error (ApiError.exn "unreachable") }

instance {e a : Type} [DecidableEq e] [DecidableEq a] : DecidableEq (Except e a) :=
  fun x y =>
    match x, y with
    | Except.ok u, Except.ok v =>
      decidable_of_iff (u = v) ⟨fun h => by rw [h], fun h => by injection h⟩
    | Except.error u, Except.error v =>
      decidable_of_iff (u = v) ⟨fun h => by rw [h], fun h => by injection h⟩
    | Except.ok _, Except.error _ => isFalse (fun h => by injection h)
    | Except.error _, Except.ok _ => isFalse (fun h => by injection h)

/-- A page with no properties, returned by the test oracle. -/
def emptyPage : Page := { id := some "B1", last_edited_time := none, properties := [] }

/-- An oracle on which every remote call succeeds, so that performed writes
are visible in the call trace. -/
def okOracle : RemoteOracle :=
  { retrieveDatabase := Except.ok []
    createPage := fun _ => Except.ok emptyPage
    retrievePage := fun _ => Except.ok emptyPage
    updatePage := fun _ _ => Except.ok emptyPage }

/-- An update payload whose only supplied field is an empty-string name. -/
def emptyNameUpdate : ContactDict := { name := .val "" }

/-- An update payload with only blank supplied values (a `None` email and a
whitespace-only notes string) and no name. -/
def blankUpdate : ContactDict := { email := .pynone, notes := .val "   " }

/-- A page query that always fails with an authorization error (a permanent
`APIResponseError`). -/
def authFailOracle : Nat → Except ApiError Nat :=
  fun _ => Except.error (ApiError.api "unauthorized" "API token is invalid")

/-- A page query that fails transiently once, then succeeds. -/
def transientThenOkOracle : Nat → Except ApiError Nat :=
  fun i => if i = 0 then Except.error (ApiError.exn "timeout") else Except.ok 7

/-! ### Theorems -/

/-! ### Helper lemmas about the merge -/

theorem lookupById_id {cached : List Contact} {cid : String} {c : Contact}
    (h : lookupById cached cid = some c) : c.id = some cid := by
  have hp := List.find?_some h
  simpa using hp

theorem mergeStep_id (parse : String → Option Int) (sysMod : String → Option Int)
    (cached : List Contact) (nc : Contact) :
    (mergeStep parse sysMod cached nc).id = nc.id := by
  unfold mergeStep
  cases hid : nc.id with
  | none => exact hid
  | some cid =>
    by_cases hcid : cid = ""
    · subst hcid
      simpa using hid
    · simp only [hcid, if_false]
      cases hsm : sysMod cid with
      | none => exact hid
      | some smt =>
        by_cases hsmt : smt = 0
        · simp only [hsmt, if_true]
          exact hid
        · simp only [hsmt, if_false]
          cases hlk : lookupById cached cid with
          | none => exact hid
          | some c =>
            by_cases hw : localWins parse smt nc.notionLastEditedTime
            · simp only [hw, if_true]
              exact lookupById_id hlk
            · simp only [hw, if_false]
              exact hid

theorem effectiveIds_unique {l : List Contact} (h : (effectiveIds l).Nodup)
    {a b : Contact} (ha : a ∈ l) (hb : b ∈ l) {cid : String}
    (hea : effectiveId a = some cid) (heb : effectiveId b = some cid) : a = b := by
  induction l with
  | nil => cases ha
  | cons x t ih =>
    have hids : effectiveIds (x :: t) =
        match effectiveId x with
        | none => effectiveIds t
        | some k => k :: effectiveIds t := by
      simp [effectiveIds, List.filterMap_cons]
      cases effectiveId x <;> simp
    rcases List.mem_cons.mp ha with hax | hat
    · rcases List.mem_cons.mp hb with hbx | hbt
      · rw [hax, hbx]
      · exfalso
        subst hax
        rw [hids, hea] at h
        have hmem : cid ∈ effectiveIds t :=
          List.mem_filterMap.mpr ⟨b, hbt, heb⟩
        exact (List.nodup_cons.mp h).1 hmem
    · rcases List.mem_cons.mp hb with hbx | hbt
      · exfalso
        subst hbx
        rw [hids, heb] at h
        have hmem : cid ∈ effectiveIds t :=
          List.mem_filterMap.mpr ⟨a, hat, hea⟩
        exact (List.nodup_cons.mp h).1 hmem
      · refine ih ?_ hat hbt
        rw [hids] at h
        cases hx : effectiveId x with
        | none => rw [hx] at h; exact h
        | some k => rw [hx] at h; exact (List.nodup_cons.mp h).2

theorem lookupById_map_of_unique {g : Contact → Contact}
    (hg : ∀ c, (g c).id = c.id) {s : List Contact}
    (h : (effectiveIds s).Nodup) {nc : Contact} (hm : nc ∈ s)
    {cid : String} (he : effectiveId nc = some cid) :
    lookupById (s.map g) cid = some (g nc) := by
  unfold lookupById
  rw [← List.map_reverse, List.find?_map]
  have hpred : ((fun c => c.id == some cid) ∘ g) = (fun c => c.id == some cid) := by
    funext c
    simp [Function.comp, hg]
  rw [hpred]
  have hnc_pred : (fun c => c.id == some cid) nc = true := by
    unfold effectiveId at he
    cases hid : nc.id with
    | none => rw [hid] at he; cases he
    | some k =>
      rw [hid] at he
      by_cases hk : k = ""
      · simp [hk] at he
      · simp only [hk, if_false, Option.some.injEq] at he
        subst he
        simp [hid]
  have hsome : (s.reverse.find? (fun c => c.id == some cid)).isSome := by
    rw [List.find?_isSome]
    exact ⟨nc, List.mem_reverse.mpr hm, hnc_pred⟩
  obtain ⟨c, hc⟩ := Option.isSome_iff_exists.mp hsome
  have hcp := List.find?_some hc
  have hcm : c ∈ s := List.mem_reverse.mp (List.mem_of_find?_eq_some hc)
  have hcid : c.id = some cid := by simpa using hcp
  have hcne : cid ≠ "" := by
    unfold effectiveId at he
    cases hid : nc.id with
    | none => rw [hid] at he; cases he
    | some k =>
      rw [hid] at he
      by_cases hk : k = ""
      · simp [hk] at he
      · simp only [hk, if_false, Option.some.injEq] at he
        subst he; exact hk
  have hec : effectiveId c = some cid := by
    unfold effectiveId
    rw [hcid]
    simp [hcne]
  have := effectiveIds_unique h hcm hm hec he
  rw [hc, this]
  simp

/-! ### Claim theorems C1 - C3 -/

/-- C1: for every remote record processed by `reconcile()` whose id has a
(truthy) entry in `localEdits` and a cached version: if the remote record
carries no remote-edit timestamp, or the timestamp cannot be parsed, or the
local edit timestamp is strictly newer, the cached version is kept, otherwise
the remote version is used.  In particular in the literal scenario (cached "A"
= "contacted", `localEdits["A"] = 100`), remote edit time 50 keeps the cached
record and remote edit time 150 adopts the remote one. -/
theorem reconcile_local_edit_precedence :
    (∀ (parse sysMod : String → Option Int) (cached : List Contact)
        (nc c : Contact) (cid : String) (smt : Int),
        nc.id = some cid → cid ≠ "" → sysMod cid = some smt → smt ≠ 0 →
        lookupById cached cid = some c →
        ((LocalWinsProp parse smt nc.notionLastEditedTime →
            mergeStep parse sysMod cached nc = c) ∧
          (¬ LocalWinsProp parse smt nc.notionLastEditedTime →
            mergeStep parse sysMod cached nc = nc))) ∧
    mergeContacts isoParse smA [remoteA50] (some [cachedA]) = [cachedA] ∧
    mergeContacts isoParse smA [remoteA150] (some [cachedA]) = [remoteA150] := by
  refine ⟨?_, by decide, by decide⟩
  intro parse sysMod cached nc c cid smt hid hcid hsm hsmt hlk
  have hwin : localWins parse smt nc.notionLastEditedTime = true ↔
      LocalWinsProp parse smt nc.notionLastEditedTime := by
    unfold localWins LocalWinsProp
    cases hnet : nc.notionLastEditedTime with
    | none => simp
    | some s =>
      by_cases hs : s = ""
      · subst hs
        simp
      · simp only [hs, if_false]
        cases hp : parse s with
        | none =>
          constructor
          · intro _
            exact Or.inr (Or.inr (Or.inl ⟨s, rfl, hs, hp⟩))
          · intro _
            rfl
        | some t =>
          simp only [decide_eq_true_eq]
          constructor
          · intro hlt
            exact Or.inr (Or.inr (Or.inr ⟨s, t, rfl, hs, hp, hlt⟩))
          · rintro (h | h | ⟨u, hu, _, hpu⟩ | ⟨u, v, hu, _, hpu, hv⟩)
            · cases h
            · rw [Option.some.injEq] at h
              exact absurd h hs
            · rw [Option.some.injEq] at hu; subst hu
              rw [hp] at hpu; cases hpu
            · rw [Option.some.injEq] at hu; subst hu
              rw [hp] at hpu
              rw [Option.some.injEq] at hpu; subst hpu
              exact hv
  constructor
  · intro hw
    unfold mergeStep
    rw [hid]
    simp only [hcid, if_false, hsm, hsmt, if_false, hlk]
    rw [hwin.mpr hw]
    simp
  · intro hw
    unfold mergeStep
    rw [hid]
    simp only [hcid, if_false, hsm, hsmt, if_false, hlk]
    have hf : localWins parse smt nc.notionLastEditedTime = false := by
      cases hb : localWins parse smt nc.notionLastEditedTime with
      | true => exact absurd (hwin.mp hb) hw
      | false => rfl
    rw [hf]
    simp

/-- Witness for C1 at the literal scenario: the general branch applied to the
cached record "A" with `localEdits["A"] = 100` and remote edit time 50. -/
theorem reconcile_local_edit_precedence_witness :
    mergeStep isoParse smA [cachedA] remoteA50 = cachedA :=
  (reconcile_local_edit_precedence.1 isoParse smA [cachedA] remoteA50 cachedA
      "A" 100 rfl (by decide) (by decide) (by decide) (by decide)).1
    (Or.inr (Or.inr (Or.inr ⟨"1970-01-01T00:00:50+00:00", 50, rfl, by decide,
      rfl, by decide⟩)))

/-- C2: the ids present after reconciliation are exactly (positionally) the ids
of the remote snapshot, for every prior cache state and every `localEdits` map:
remotely absent ids disappear, remotely present ids are all present. -/
theorem reconcile_remote_id_authority
    (parse sysMod : String → Option Int) (notionContacts : List Contact)
    (cachedContacts : Option (List Contact)) :
    (mergeContacts parse sysMod notionContacts cachedContacts).map Contact.id =
      notionContacts.map Contact.id := by
  unfold mergeContacts
  cases cachedContacts with
  | none => rfl
  | some cached =>
    rw [List.map_map]
    exact List.map_congr_left (fun nc _ => mergeStep_id parse sysMod cached nc)

/-- C3 counterexample: with a remote snapshot containing two records for the
same id "A" (edit times 50 and 150) and a cached "A" with
`localEdits["A"] = 100`, a second reconciliation of the same snapshot changes
the cache again, so `reconcile` is not idempotent as claimed. -/
theorem reconcile_idempotence_counterexample :
    mergeContacts isoParse smA [remoteA50, remoteA150]
        (some (mergeContacts isoParse smA [remoteA50, remoteA150] (some [cachedA]))) ≠
      mergeContacts isoParse smA [remoteA50, remoteA150] (some [cachedA]) := by
  decide

theorem mergeStep_spec (parse sysMod : String → Option Int)
    (cached : List Contact) (nc : Contact) (cid : String) (smt : Int)
    (hid : nc.id = some cid) (hcid : cid ≠ "") (hsm : sysMod cid = some smt)
    (hsmt : smt ≠ 0) :
    mergeStep parse sysMod cached nc =
      match lookupById cached cid with
      | none => nc
      | some c => if localWins parse smt nc.notionLastEditedTime then c else nc := by
  unfold mergeStep
  rw [hid]
  simp [hcid, hsm, hsmt]

/-- C3 amended: for snapshots in which the (truthy) record ids are pairwise
distinct -- the shape every real remote snapshot has -- reconciling the same
snapshot twice with unchanged `localEdits` equals reconciling it once. -/
theorem reconcile_idempotent_of_nodup_ids
    (parse sysMod : String → Option Int) (s : List Contact)
    (c0 : List Contact) (h : (effectiveIds s).Nodup) :
    mergeContacts parse sysMod s (some (mergeContacts parse sysMod s (some c0))) =
      mergeContacts parse sysMod s (some c0) := by
  unfold mergeContacts
  apply List.map_congr_left
  intro nc hm
  cases hid : nc.id with
  | none => unfold mergeStep; rw [hid]
  | some cid =>
    by_cases hcid : cid = ""
    · unfold mergeStep; rw [hid]; simp [hcid]
    · cases hsm : sysMod cid with
      | none => unfold mergeStep; rw [hid]; simp [hcid, hsm]
      | some smt =>
        by_cases hsmt : smt = 0
        · unfold mergeStep; rw [hid]; simp [hcid, hsm, hsmt]
        · have he : effectiveId nc = some cid := by
            unfold effectiveId; rw [hid]; simp [hcid]
          have hlk2 := lookupById_map_of_unique
            (mergeStep_id parse sysMod c0) h hm he
          rw [mergeStep_spec parse sysMod _ nc cid smt hid hcid hsm hsmt, hlk2,
            mergeStep_spec parse sysMod c0 nc cid smt hid hcid hsm hsmt]
          by_cases hw : localWins parse smt nc.notionLastEditedTime
          · simp only [hw, if_true]
          · cases lookupById c0 cid <;> simp [hw]

/-- Witness for C3 amended: a single-record snapshot has distinct ids and the
second reconciliation is a no-op on it. -/
theorem reconcile_idempotent_of_nodup_ids_witness :
    (effectiveIds [remoteA50]).Nodup ∧
      mergeContacts isoParse smA [remoteA50]
          (some (mergeContacts isoParse smA [remoteA50] (some [cachedA]))) =
        mergeContacts isoParse smA [remoteA50] (some [cachedA]) :=
  ⟨by decide, reconcile_idempotent_of_nodup_ids isoParse smA [remoteA50] [cachedA]
    (by decide)⟩

/-! ### Lookup lemmas for writer-produced bags -/

theorem bagFind_insert (b : Bag) (k : String) (v : NProp) (k' : String) :
    bagFind (bagInsert b k v) k' = if k = k' then some v else bagFind b k' := by
  induction b with
  | nil =>
    by_cases h : k = k' <;> simp [bagInsert, bagFind, h]
  | cons kv rest ih =>
    obtain ⟨k0, v0⟩ := kv
    by_cases h0 : k0 = k
    · subst h0
      by_cases h : k0 = k' <;> simp [bagInsert, bagFind, h]
    · by_cases h : k = k'
      · subst h
        simp [bagInsert, bagFind, h0, ih]
      · by_cases h1 : k0 = k'
        · simp [bagInsert, bagFind, h0, h1, ih, h, Ne.symm h]
        · simp [bagInsert, bagFind, h0, h1, ih, h]

theorem getNotionPropertyName_nil (names : List String) :
    getNotionPropertyName [] names = names.headD "" := by
  have h1 : names.find? (fun k => (bagFind ([] : Bag) k).isSome) = none := by
    rw [List.find?_eq_none]
    intro x _
    simp [bagFind]
  have h2 : names.find? (fun k => (lowerLookup [] (pyLower k)).isSome) = none := by
    rw [List.find?_eq_none]
    intro x _
    simp [lowerLookup]
  unfold getNotionPropertyName findPropertyKey
  rw [h1, h2]

theorem bagFind_writeStrField_ne (v : DStr) (names : List String)
    (mk : String → NProp) (b : Bag) (k : String) (h : ¬(names.headD "" = k)) :
    bagFind (writeStrField v [] names mk b) k = bagFind b k := by
  cases v with
  | absent => rfl
  | pynone => rfl
  | val s =>
    show bagFind
        (if pyStrip s = "" then b else bagInsert b (getNotionPropertyName [] names) (mk s)) k =
      bagFind b k
    by_cases hs : pyStrip s = ""
    · rw [if_pos hs]
    · rw [if_neg hs, bagFind_insert, getNotionPropertyName_nil, if_neg h]

theorem bagFind_writeDateField_ne (v : DStr) (names : List String)
    (b : Bag) (k : String) (h : ¬(names.headD "" = k)) :
    bagFind (writeDateField v [] names b) k = bagFind b k := by
  cases v with
  | absent => rfl
  | pynone => rfl
  | val s =>
    show bagFind
        (if s = "" then b
          else if pyStrip s = "" then b
          else bagInsert b (getNotionPropertyName [] names) (dateStartProp s)) k =
      bagFind b k
    by_cases hs : s = ""
    · rw [if_pos hs]
    · by_cases ht : pyStrip s = ""
      · rw [if_neg hs, if_pos ht]
      · rw [if_neg hs, if_neg ht, bagFind_insert, getNotionPropertyName_nil, if_neg h]

theorem bagFind_writeIntField_ne (v : DInt) (names : List String)
    (b : Bag) (k : String) (h : ¬(names.headD "" = k)) :
    bagFind (writeIntField v [] names b) k = bagFind b k := by
  cases v with
  | absent => rfl
  | pynone => rfl
  | int n =>
    show bagFind (bagInsert b (getNotionPropertyName [] names) (numberProp n)) k = bagFind b k
    rw [bagFind_insert, getNotionPropertyName_nil, if_neg h]

theorem bagFind_writeNameField_ne (v : DStr) (b : Bag) (k : String)
    (h : ¬(("Contact" : String) = k)) :
    bagFind (writeNameField v [] b) k = bagFind b k := by
  cases v with
  | absent => rfl
  | pynone =>
    show bagFind
        (bagInsert b (getNotionPropertyName [] ["Contact", "Name", "name"]) (titleProp "None"))
        k = bagFind b k
    rw [bagFind_insert, getNotionPropertyName_nil]
    simp [h]
  | val s =>
    show bagFind
        (bagInsert b (getNotionPropertyName [] ["Contact", "Name", "name"]) (titleProp s)) k =
      bagFind b k
    rw [bagFind_insert, getNotionPropertyName_nil]
    simp [h]

theorem bagFind_writeStrField_val (s : String) (names : List String)
    (mk : String → NProp) (b : Bag) (hs : ¬(pyStrip s = "")) :
    bagFind (writeStrField (DStr.val s) [] names mk b) (names.headD "") = some (mk s) := by
  show bagFind
      (if pyStrip s = "" then b else bagInsert b (getNotionPropertyName [] names) (mk s))
      (names.headD "") = some (mk s)
  rw [if_neg hs, bagFind_insert, getNotionPropertyName_nil, if_pos rfl]

theorem bagFind_writeDateField_val (s : String) (names : List String)
    (b : Bag) (hs0 : ¬(s = "")) (hs : ¬(pyStrip s = "")) :
    bagFind (writeDateField (DStr.val s) [] names b) (names.headD "") =
      some (dateStartProp s) := by
  show bagFind
      (if s = "" then b
        else if pyStrip s = "" then b
        else bagInsert b (getNotionPropertyName [] names) (dateStartProp s))
      (names.headD "") = some (dateStartProp s)
  rw [if_neg hs0, if_neg hs, bagFind_insert, getNotionPropertyName_nil, if_pos rfl]

theorem bagFind_writeIntField_val (n : Int) (names : List String) (b : Bag) :
    bagFind (writeIntField (DInt.int n) [] names b) (names.headD "") =
      some (numberProp n) := by
  show bagFind (bagInsert b (getNotionPropertyName [] names) (numberProp n)) (names.headD "") =
    some (numberProp n)
  rw [bagFind_insert, getNotionPropertyName_nil, if_pos rfl]

theorem roundTrip_phone_aux (r : ContactDict) (s : String)
    (h : r.phone = DStr.val s) (hs : ¬(pyStrip s = "")) :
    (roundTrip r).phone = some s := by
  have hbag : bagFind (mapContactToNotion r []) "Phone" = some (phoneProp s) := by
    simp only [mapContactToNotion]
    rw [bagFind_writeDateField_ne r.next_followup_date _ _ _ (by decide),
      bagFind_writeDateField_ne r.created_date _ _ _ (by decide),
      bagFind_writeDateField_ne r.last_contact_date _ _ _ (by decide),
      bagFind_writeIntField_ne r.call_count _ _ _ (by decide),
      bagFind_writeStrField_ne r.followup_context _ _ _ _ (by decide),
      bagFind_writeStrField_ne r.notes _ _ _ _ (by decide),
      bagFind_writeStrField_ne r.linkedin_url _ _ _ _ (by decide),
      bagFind_writeStrField_ne r.location _ _ _ _ (by decide),
      bagFind_writeStrField_ne r.industry _ _ _ _ (by decide),
      bagFind_writeStrField_ne r.company _ _ _ _ (by decide),
      bagFind_writeStrField_ne r.title _ _ _ _ (by decide),
      bagFind_writeStrField_ne r.relationship_type _ _ _ _ (by decide),
      bagFind_writeStrField_ne r.group _ _ _ _ (by decide),
      bagFind_writeStrField_ne r.type _ _ _ _ (by decide),
      bagFind_writeStrField_ne r.status _ _ _ _ (by decide),
      h]
    exact bagFind_writeStrField_val s ["Phone", "phone"] phoneProp _ hs
  simp [roundTrip, mapNotionToContact, getPVStr, getPropertyValue, findPropertyKey,
    extractValue, phoneProp, hbag, List.find?]

theorem roundTrip_status_aux (r : ContactDict) (v : String) (h : r.status = DStr.val v)
    (hv : v ∈ (["wait", "queued", "need_to_contact", "contacted", "circle_back",
      "scheduled", "done", "ghosted"] : List String)) :
    (roundTrip r).status = some v := by
  have htrim : ¬(pyStrip v = "") := by fin_cases hv <;> decide
  have hbag : bagFind (mapContactToNotion r []) "Status" =
      some (statusNameProp (normalizeStatusToNotion v)) := by
    simp only [mapContactToNotion]
    rw [bagFind_writeDateField_ne r.next_followup_date _ _ _ (by decide),
      bagFind_writeDateField_ne r.created_date _ _ _ (by decide),
      bagFind_writeDateField_ne r.last_contact_date _ _ _ (by decide),
      bagFind_writeIntField_ne r.call_count _ _ _ (by decide),
      bagFind_writeStrField_ne r.followup_context _ _ _ _ (by decide),
      bagFind_writeStrField_ne r.notes _ _ _ _ (by decide),
      bagFind_writeStrField_ne r.linkedin_url _ _ _ _ (by decide),
      bagFind_writeStrField_ne r.location _ _ _ _ (by decide),
      bagFind_writeStrField_ne r.industry _ _ _ _ (by decide),
      bagFind_writeStrField_ne r.company _ _ _ _ (by decide),
      bagFind_writeStrField_ne r.title _ _ _ _ (by decide),
      bagFind_writeStrField_ne r.relationship_type _ _ _ _ (by decide),
      bagFind_writeStrField_ne r.group _ _ _ _ (by decide),
      bagFind_writeStrField_ne r.type _ _ _ _ (by decide),
      h]
    exact bagFind_writeStrField_val v ["Status", "status"]
      (fun s => statusNameProp (normalizeStatusToNotion s)) _ htrim
  have hread : (roundTrip r).status =
      normalizeStatusRead (some (normalizeStatusToNotion v)) := by
    simp [roundTrip, mapNotionToContact, getPVStr, getPropertyValue, findPropertyKey,
      extractValue, statusNameProp, hbag, List.find?]
  rw [hread]
  fin_cases hv <;> decide

theorem roundTrip_type_aux (r : ContactDict) (v : String) (h : r.type = DStr.val v)
    (hv : v ∈ (["existing", "2026_new"] : List String)) :
    (roundTrip r).type = some v := by
  have htrim : ¬(pyStrip v = "") := by fin_cases hv <;> decide
  have hbag : bagFind (mapContactToNotion r []) "Type" =
      some (statusNameProp (normalizeTypeToNotion v)) := by
    simp only [mapContactToNotion]
    rw [bagFind_writeDateField_ne r.next_followup_date _ _ _ (by decide),
      bagFind_writeDateField_ne r.created_date _ _ _ (by decide),
      bagFind_writeDateField_ne r.last_contact_date _ _ _ (by decide),
      bagFind_writeIntField_ne r.call_count _ _ _ (by decide),
      bagFind_writeStrField_ne r.followup_context _ _ _ _ (by decide),
      bagFind_writeStrField_ne r.notes _ _ _ _ (by decide),
      bagFind_writeStrField_ne r.linkedin_url _ _ _ _ (by decide),
      bagFind_writeStrField_ne r.location _ _ _ _ (by decide),
      bagFind_writeStrField_ne r.industry _ _ _ _ (by decide),
      bagFind_writeStrField_ne r.company _ _ _ _ (by decide),
      bagFind_writeStrField_ne r.title _ _ _ _ (by decide),
      bagFind_writeStrField_ne r.relationship_type _ _ _ _ (by decide),
      bagFind_writeStrField_ne r.group _ _ _ _ (by decide),
      h]
    exact bagFind_writeStrField_val v ["Type", "type"]
      (fun s => statusNameProp (normalizeTypeToNotion s)) _ htrim
  have hread : (roundTrip r).type =
      normalizeTypeRead (some (normalizeTypeToNotion v)) := by
    simp [roundTrip, mapNotionToContact, getPVStr, getPropertyValue, findPropertyKey,
      extractValue, statusNameProp, hbag, List.find?]
  rw [hread]
  fin_cases hv <;> decide

theorem roundTrip_group_aux (r : ContactDict) (v : String) (h : r.group = DStr.val v)
    (hv : v ∈ (["fam", "McK", "PEA", "GU", "BP", "MBA", "MVNX", "other"] : List String)) :
    (roundTrip r).group = some v := by
  have htrim : ¬(pyStrip v = "") := by fin_cases hv <;> decide
  have hbag : bagFind (mapContactToNotion r []) "Group" =
      some (statusNameProp ((normalizeGroupForNotion (some v)).getD "")) := by
    simp only [mapContactToNotion]
    rw [bagFind_writeDateField_ne r.next_followup_date _ _ _ (by decide),
      bagFind_writeDateField_ne r.created_date _ _ _ (by decide),
      bagFind_writeDateField_ne r.last_contact_date _ _ _ (by decide),
      bagFind_writeIntField_ne r.call_count _ _ _ (by decide),
      bagFind_writeStrField_ne r.followup_context _ _ _ _ (by decide),
      bagFind_writeStrField_ne r.notes _ _ _ _ (by decide),
      bagFind_writeStrField_ne r.linkedin_url _ _ _ _ (by decide),
      bagFind_writeStrField_ne r.location _ _ _ _ (by decide),
      bagFind_writeStrField_ne r.industry _ _ _ _ (by decide),
      bagFind_writeStrField_ne r.company _ _ _ _ (by decide),
      bagFind_writeStrField_ne r.title _ _ _ _ (by decide),
      bagFind_writeStrField_ne r.relationship_type _ _ _ _ (by decide),
      h]
    exact bagFind_writeStrField_val v ["Group", "group"]
      (fun s => statusNameProp ((normalizeGroupForNotion (some s)).getD "")) _ htrim
  have hread : (roundTrip r).group =
      cleanGroupValue (some ((normalizeGroupForNotion (some v)).getD "")) := by
    simp [roundTrip, mapNotionToContact, getPVStr, getPropertyValue, findPropertyKey,
      extractValue, statusNameProp, hbag, List.find?]
  rw [hread]
  fin_cases hv <;> decide

theorem roundTrip_relationship_aux (r : ContactDict) (s : String)
    (h : r.relationship_type = DStr.val s) (hs : ¬(pyStrip s = "")) :
    (roundTrip r).relationship_type = some s := by
  have hbag : bagFind (mapContactToNotion r []) "Relationship Type" =
      some (statusNameProp s) := by
    simp only [mapContactToNotion]
    rw [bagFind_writeDateField_ne r.next_followup_date _ _ _ (by decide),
      bagFind_writeDateField_ne r.created_date _ _ _ (by decide),
      bagFind_writeDateField_ne r.last_contact_date _ _ _ (by decide),
      bagFind_writeIntField_ne r.call_count _ _ _ (by decide),
      bagFind_writeStrField_ne r.followup_context _ _ _ _ (by decide),
      bagFind_writeStrField_ne r.notes _ _ _ _ (by decide),
      bagFind_writeStrField_ne r.linkedin_url _ _ _ _ (by decide),
      bagFind_writeStrField_ne r.location _ _ _ _ (by decide),
      bagFind_writeStrField_ne r.industry _ _ _ _ (by decide),
      bagFind_writeStrField_ne r.company _ _ _ _ (by decide),
      bagFind_writeStrField_ne r.title _ _ _ _ (by decide),
      h]
    exact bagFind_writeStrField_val s ["Relationship Type", "relationship_type"]
      statusNameProp _ hs
  simp [roundTrip, mapNotionToContact, getPVStr, getPropertyValue, findPropertyKey,
    extractValue, statusNameProp, hbag, List.find?]

theorem roundTrip_call_count_aux (r : ContactDict) (n : Int)
    (h : r.call_count = DInt.int n) : (roundTrip r).call_count = n := by
  have hbag : bagFind (mapContactToNotion r []) "Count" = some (numberProp n) := by
    simp only [mapContactToNotion]
    rw [bagFind_writeDateField_ne r.next_followup_date _ _ _ (by decide),
      bagFind_writeDateField_ne r.created_date _ _ _ (by decide),
      bagFind_writeDateField_ne r.last_contact_date _ _ _ (by decide),
      h]
    exact bagFind_writeIntField_val n ["Count", "Call Count", "call_count"] _
  simp [roundTrip, mapNotionToContact, getPVInt, getPropertyValue, findPropertyKey,
    extractValue, numberProp, hbag, List.find?]

theorem roundTrip_last_contact_date_aux (r : ContactDict) (s : String)
    (h : r.last_contact_date = DStr.val s) (hs : ¬(pyStrip s = "")) :
    (roundTrip r).last_contact_date = some s := by
  have hs0 : ¬(s = "") := fun he => hs (by rw [he]; decide)
  have hbag : bagFind (mapContactToNotion r []) "Last contact date" =
      some (dateStartProp s) := by
    simp only [mapContactToNotion]
    rw [bagFind_writeDateField_ne r.next_followup_date _ _ _ (by decide),
      bagFind_writeDateField_ne r.created_date _ _ _ (by decide),
      h]
    exact bagFind_writeDateField_val s ["Last contact date", "Last Contact Date", "last_contact_date"] _ hs0 hs
  simp [roundTrip, mapNotionToContact, getPVStr, getPropertyValue, findPropertyKey,
    extractValue, dateStartProp, hbag, hs0, List.find?]

theorem roundTrip_created_date_aux (r : ContactDict) (s : String)
    (h : r.created_date = DStr.val s) (hs : ¬(pyStrip s = "")) :
    (roundTrip r).created_date = some s := by
  have hs0 : ¬(s = "") := fun he => hs (by rw [he]; decide)
  have hbag : bagFind (mapContactToNotion r []) "Created date" =
      some (dateStartProp s) := by
    simp only [mapContactToNotion]
    rw [bagFind_writeDateField_ne r.next_followup_date _ _ _ (by decide),
      h]
    exact bagFind_writeDateField_val s ["Created date", "Created Date", "created_date"] _ hs0 hs
  simp [roundTrip, mapNotionToContact, getPVStr, getPropertyValue, findPropertyKey,
    extractValue, dateStartProp, hbag, hs0, List.find?]

theorem roundTrip_next_followup_date_aux (r : ContactDict) (s : String)
    (h : r.next_followup_date = DStr.val s) (hs : ¬(pyStrip s = "")) :
    (roundTrip r).next_followup_date = some s := by
  have hs0 : ¬(s = "") := fun he => hs (by rw [he]; decide)
  have hbag : bagFind (mapContactToNotion r []) "Next followup date" =
      some (dateStartProp s) := by
    simp only [mapContactToNotion]
    rw [h]
    exact bagFind_writeDateField_val s ["Next followup date", "Next Followup Date", "next_followup_date"] _ hs0 hs
  simp [roundTrip, mapNotionToContact, getPVStr, getPropertyValue, findPropertyKey,
    extractValue, dateStartProp, hbag, hs0, List.find?]

/-- C4 counterexample: `contactAlice` has the non-empty name "Alice", but the
round trip through an empty schema yields "Unnamed Contact" for it: the writer
stores text as `text.content` while the reader extracts `plain_text`, which
only the remote store populates.  So the round trip does not reproduce every
non-empty field. -/
theorem roundtrip_name_counterexample :
    contactAlice.name = DStr.val "Alice" ∧
      (roundTrip contactAlice).name = "Unnamed Contact" ∧
      ¬((roundTrip contactAlice).name = "Alice") :=
  ⟨rfl, by decide, by decide⟩

/-- C4 amended: for every CanonicalRecord, `toCanonical(toExternal(r, {}))`
reproduces the non-empty phone, status, type, group, relationship-type,
call-count and date fields (with values from the mapper's tables where a table
applies); the title- and rich-text-encoded fields (name, email, title,
company, industry, location, linkedin_url, notes, followup_context) are not
reproduced, because the freshly written bag lacks the store-populated
`plain_text` the reader extracts. -/
theorem roundtrip_reproduces_plain_fields :
    (∀ (r : ContactDict) (s : String), r.phone = DStr.val s → ¬(pyStrip s = "") →
      (roundTrip r).phone = some s) ∧
    (∀ (r : ContactDict) (v : String), r.status = DStr.val v →
      v ∈ (["wait", "queued", "need_to_contact", "contacted", "circle_back",
        "scheduled", "done", "ghosted"] : List String) →
      (roundTrip r).status = some v) ∧
    (∀ (r : ContactDict) (v : String), r.type = DStr.val v →
      v ∈ (["existing", "2026_new"] : List String) → (roundTrip r).type = some v) ∧
    (∀ (r : ContactDict) (v : String), r.group = DStr.val v →
      v ∈ (["fam", "McK", "PEA", "GU", "BP", "MBA", "MVNX", "other"] : List String) →
      (roundTrip r).group = some v) ∧
    (∀ (r : ContactDict) (s : String), r.relationship_type = DStr.val s →
      ¬(pyStrip s = "") → (roundTrip r).relationship_type = some s) ∧
    (∀ (r : ContactDict) (n : Int), r.call_count = DInt.int n →
      (roundTrip r).call_count = n) ∧
    (∀ (r : ContactDict) (s : String), r.last_contact_date = DStr.val s →
      ¬(pyStrip s = "") → (roundTrip r).last_contact_date = some s) ∧
    (∀ (r : ContactDict) (s : String), r.created_date = DStr.val s →
      ¬(pyStrip s = "") → (roundTrip r).created_date = some s) ∧
    (∀ (r : ContactDict) (s : String), r.next_followup_date = DStr.val s →
      ¬(pyStrip s = "") → (roundTrip r).next_followup_date = some s) :=
  ⟨roundTrip_phone_aux, roundTrip_status_aux, roundTrip_type_aux, roundTrip_group_aux,
    roundTrip_relationship_aux, roundTrip_call_count_aux, roundTrip_last_contact_date_aux,
    roundTrip_created_date_aux, roundTrip_next_followup_date_aux⟩

/-- Witness for C4 amended at `contactFull`. -/
theorem roundtrip_reproduces_plain_fields_witness :
    (roundTrip contactFull).phone = some "555-0101" ∧
      (roundTrip contactFull).status = some "queued" ∧
      (roundTrip contactFull).type = some "existing" ∧
      (roundTrip contactFull).group = some "McK" ∧
      (roundTrip contactFull).relationship_type = some "advisor" ∧
      (roundTrip contactFull).call_count = 3 ∧
      (roundTrip contactFull).last_contact_date = some "2025-01-02" ∧
      (roundTrip contactFull).created_date = some "2024-12-31" ∧
      (roundTrip contactFull).next_followup_date = some "2025-02-03" :=
  ⟨roundtrip_reproduces_plain_fields.1 contactFull _ rfl (by decide),
    roundtrip_reproduces_plain_fields.2.1 contactFull _ rfl (by decide),
    roundtrip_reproduces_plain_fields.2.2.1 contactFull _ rfl (by decide),
    roundtrip_reproduces_plain_fields.2.2.2.1 contactFull _ rfl (by decide),
    roundtrip_reproduces_plain_fields.2.2.2.2.1 contactFull _ rfl (by decide),
    roundtrip_reproduces_plain_fields.2.2.2.2.2.1 contactFull _ rfl,
    roundtrip_reproduces_plain_fields.2.2.2.2.2.2.1 contactFull _ rfl (by decide),
    roundtrip_reproduces_plain_fields.2.2.2.2.2.2.2.1 contactFull _ rfl (by decide),
    roundtrip_reproduces_plain_fields.2.2.2.2.2.2.2.2 contactFull _ rfl (by decide)⟩

/-- C7 (code bug): a whitespace-only external name is stripped to the empty
string instead of being replaced by the sentinel, because the truthiness check
happens before `strip()`; the mapped record's `name` is `""`, violating the
never-empty invariant (which the repository's own response model asserts). -/
theorem blank_name_not_replaced :
    (mapNotionToContact whitespaceNamePage).name = "" ∧
      ¬((mapNotionToContact whitespaceNamePage).name = "Unnamed Contact") :=
  ⟨by decide, by decide⟩

/-! ### Group canonicalization (claim C8) -/

/-- C8: the raw external value "McKinsey)" canonicalizes in the read direction
to "McK", and writing the canonical "McK" through the write-direction table
yields exactly "McK" (not "Mck" and not "MCKINSEY"). -/
theorem group_canonicalization_mckinsey :
    cleanGroupValue (some "McKinsey)") = some "McK" ∧
      normalizeGroupForNotion (some "McK") = some "McK" ∧
      ¬(normalizeGroupForNotion (some "McK") = some "Mck") ∧
      ¬(normalizeGroupForNotion (some "McK") = some "MCKINSEY") := by
  refine ⟨by decide, by decide, by decide, by decide⟩

/-- C5: creating a contact with neither email nor phone set (missing, `None`
or empty) raises a local `ValueError` and performs zero remote calls,
whatever the remote store would answer. -/
theorem create_rejects_missing_contact_method (api : RemoteOracle)
    (today : String) (c : ContactDict)
    (he : truthyDStr c.email = false) (hp : truthyDStr c.phone = false) :
    ∃ msg, createContact api today c = (Except.error (PyErr.valueError msg), []) := by
  unfold createContact
  cases hn : truthyDStr c.name with
  | false => exact ⟨"Name is required", by simp [hn]⟩
  | true =>
    exact ⟨"At least one of email or phone is required", by simp [hn, he, hp]⟩

/-- Witness for C5: a name-only contact is rejected without any remote call. -/
theorem create_rejects_missing_contact_method_witness :
    ∃ msg, createContact unreachableOracle "2026-10-12" nameOnlyContact =
      (Except.error (PyErr.valueError msg), []) :=
  create_rejects_missing_contact_method unreachableOracle "2026-10-12"
    nameOnlyContact (by decide) (by decide)

/-- C9: per bulk-fetched page batch, the number of mapped records plus the
number of records whose translation fails equals the batch size: each failure
is excluded and none aborts the fetch. -/
theorem bulk_fetch_skips_failed_translations
    (translate : Page → Except String ContactOut) (results : List Page) :
    (collectContacts translate results).length +
      results.countP (fun p => ((translate p).toOption).isNone) = results.length := by
  induction results with
  | nil => rfl
  | cons hd tl ih =>
    simp only [collectContacts, List.filterMap_cons, List.countP_cons,
      List.length_cons] at ih ⊢
    cases h : (translate hd).toOption with
    | none =>
      simp [h]
      omega
    | some c =>
      simp [h]
      omega

theorem writeStrField_blank (v : DStr) (ex : Bag) (names : List String)
    (mk : String → NProp) (b : Bag)
    (h : v = DStr.absent ∨ v = DStr.pynone ∨ ∃ s, v = DStr.val s ∧ pyStrip s = "") :
    writeStrField v ex names mk b = b := by
  rcases h with h | h | ⟨s, hv, hs⟩
  · rw [h]
    rfl
  · rw [h]
    rfl
  · rw [hv]
    show (if pyStrip s = "" then b else _) = b
    rw [if_pos hs]

theorem writeDateField_blank (v : DStr) (ex : Bag) (names : List String)
    (b : Bag)
    (h : v = DStr.absent ∨ v = DStr.pynone ∨ ∃ s, v = DStr.val s ∧ pyStrip s = "") :
    writeDateField v ex names b = b := by
  rcases h with h | h | ⟨s, hv, hs⟩
  · rw [h]
    rfl
  · rw [h]
    rfl
  · rw [hv]
    show (if s = "" then b else if pyStrip s = "" then b else _) = b
    by_cases h0 : s = ""
    · rw [if_pos h0]
    · rw [if_neg h0, if_pos hs]

theorem writeIntField_blank (v : DInt) (ex : Bag) (names : List String)
    (b : Bag) (h : v = DInt.absent ∨ v = DInt.pynone) :
    writeIntField v ex names b = b := by
  rcases h with h | h <;> (rw [h]; rfl)

theorem mapContactToNotion_blank (r : ContactDict) (ex : Bag)
    (hname : r.name = DStr.absent)
    (h1 : r.email = DStr.absent ∨ r.email = DStr.pynone ∨
      ∃ s, r.email = DStr.val s ∧ pyStrip s = "")
    (h2 : r.phone = DStr.absent ∨ r.phone = DStr.pynone ∨
      ∃ s, r.phone = DStr.val s ∧ pyStrip s = "")
    (h3 : r.status = DStr.absent ∨ r.status = DStr.pynone ∨
      ∃ s, r.status = DStr.val s ∧ pyStrip s = "")
    (h4 : r.type = DStr.absent ∨ r.type = DStr.pynone ∨
      ∃ s, r.type = DStr.val s ∧ pyStrip s = "")
    (h5 : r.group = DStr.absent ∨ r.group = DStr.pynone ∨
      ∃ s, r.group = DStr.val s ∧ pyStrip s = "")
    (h6 : r.relationship_type = DStr.absent ∨ r.relationship_type = DStr.pynone ∨
      ∃ s, r.relationship_type = DStr.val s ∧ pyStrip s = "")
    (h7 : r.title = DStr.absent ∨ r.title = DStr.pynone ∨
      ∃ s, r.title = DStr.val s ∧ pyStrip s = "")
    (h8 : r.company = DStr.absent ∨ r.company = DStr.pynone ∨
      ∃ s, r.company = DStr.val s ∧ pyStrip s = "")
    (h9 : r.industry = DStr.absent ∨ r.industry = DStr.pynone ∨
      ∃ s, r.industry = DStr.val s ∧ pyStrip s = "")
    (h10 : r.location = DStr.absent ∨ r.location = DStr.pynone ∨
      ∃ s, r.location = DStr.val s ∧ pyStrip s = "")
    (h11 : r.linkedin_url = DStr.absent ∨ r.linkedin_url = DStr.pynone ∨
      ∃ s, r.linkedin_url = DStr.val s ∧ pyStrip s = "")
    (h12 : r.notes = DStr.absent ∨ r.notes = DStr.pynone ∨
      ∃ s, r.notes = DStr.val s ∧ pyStrip s = "")
    (h13 : r.followup_context = DStr.absent ∨ r.followup_context = DStr.pynone ∨
      ∃ s, r.followup_context = DStr.val s ∧ pyStrip s = "")
    (hcc : r.call_count = DInt.absent ∨ r.call_count = DInt.pynone)
    (hd1 : r.last_contact_date = DStr.absent ∨ r.last_contact_date = DStr.pynone ∨
      ∃ s, r.last_contact_date = DStr.val s ∧ pyStrip s = "")
    (hd2 : r.created_date = DStr.absent ∨ r.created_date = DStr.pynone ∨
      ∃ s, r.created_date = DStr.val s ∧ pyStrip s = "")
    (hd3 : r.next_followup_date = DStr.absent ∨ r.next_followup_date = DStr.pynone ∨
      ∃ s, r.next_followup_date = DStr.val s ∧ pyStrip s = "") :
    mapContactToNotion r ex = [] := by
  simp only [mapContactToNotion]
  rw [writeDateField_blank _ _ _ _ hd3, writeDateField_blank _ _ _ _ hd2,
    writeDateField_blank _ _ _ _ hd1, writeIntField_blank _ _ _ _ hcc,
    writeStrField_blank _ _ _ _ _ h13, writeStrField_blank _ _ _ _ _ h12,
    writeStrField_blank _ _ _ _ _ h11, writeStrField_blank _ _ _ _ _ h10,
    writeStrField_blank _ _ _ _ _ h9, writeStrField_blank _ _ _ _ _ h8,
    writeStrField_blank _ _ _ _ _ h7, writeStrField_blank _ _ _ _ _ h6,
    writeStrField_blank _ _ _ _ _ h5, writeStrField_blank _ _ _ _ _ h4,
    writeStrField_blank _ _ _ _ _ h3, writeStrField_blank _ _ _ _ _ h2,
    writeStrField_blank _ _ _ _ _ h1, hname]
  rfl

/-- C10 counterexample: an update whose only supplied field is the empty
string `name` is one where every supplied value is empty, yet the client does
not raise "No properties to update": the name entry has no blank skip, so a
title property is built and a remote write is performed. -/
theorem update_empty_name_writes :
    (updateContact okOracle "B1" emptyNameUpdate).2 =
      [RemoteCall.retrievePage, RemoteCall.updatePage] ∧
      ¬((updateContact okOracle "B1" emptyNameUpdate).1 =
        Except.error (PyErr.valueError "No properties to update")) :=
  ⟨by decide, by decide⟩

/-- C10 amended: when the update payload supplies no `name` and every supplied
field is `None`, empty or blank (strings by `strip()`, `call_count` only as
`None`; `days_at_current_status` never maps to a writable property), the
update raises `ValueError("No properties to update")` after only the initial
existence read, with no remote write performed. -/
theorem update_all_blank_rejected (api : RemoteOracle) (cid : String)
    (r : ContactDict) (pg : Page)
    (hpg : api.retrievePage cid = Except.ok pg)
    (hname : r.name = DStr.absent)
    (h1 : r.email = DStr.absent ∨ r.email = DStr.pynone ∨
      ∃ s, r.email = DStr.val s ∧ pyStrip s = "")
    (h2 : r.phone = DStr.absent ∨ r.phone = DStr.pynone ∨
      ∃ s, r.phone = DStr.val s ∧ pyStrip s = "")
    (h3 : r.status = DStr.absent ∨ r.status = DStr.pynone ∨
      ∃ s, r.status = DStr.val s ∧ pyStrip s = "")
    (h4 : r.type = DStr.absent ∨ r.type = DStr.pynone ∨
      ∃ s, r.type = DStr.val s ∧ pyStrip s = "")
    (h5 : r.group = DStr.absent ∨ r.group = DStr.pynone ∨
      ∃ s, r.group = DStr.val s ∧ pyStrip s = "")
    (h6 : r.relationship_type = DStr.absent ∨ r.relationship_type = DStr.pynone ∨
      ∃ s, r.relationship_type = DStr.val s ∧ pyStrip s = "")
    (h7 : r.title = DStr.absent ∨ r.title = DStr.pynone ∨
      ∃ s, r.title = DStr.val s ∧ pyStrip s = "")
    (h8 : r.company = DStr.absent ∨ r.company = DStr.pynone ∨
      ∃ s, r.company = DStr.val s ∧ pyStrip s = "")
    (h9 : r.industry = DStr.absent ∨ r.industry = DStr.pynone ∨
      ∃ s, r.industry = DStr.val s ∧ pyStrip s = "")
    (h10 : r.location = DStr.absent ∨ r.location = DStr.pynone ∨
      ∃ s, r.location = DStr.val s ∧ pyStrip s = "")
    (h11 : r.linkedin_url = DStr.absent ∨ r.linkedin_url = DStr.pynone ∨
      ∃ s, r.linkedin_url = DStr.val s ∧ pyStrip s = "")
    (h12 : r.notes = DStr.absent ∨ r.notes = DStr.pynone ∨
      ∃ s, r.notes = DStr.val s ∧ pyStrip s = "")
    (h13 : r.followup_context = DStr.absent ∨ r.followup_context = DStr.pynone ∨
      ∃ s, r.followup_context = DStr.val s ∧ pyStrip s = "")
    (hcc : r.call_count = DInt.absent ∨ r.call_count = DInt.pynone)
    (hd1 : r.last_contact_date = DStr.absent ∨ r.last_contact_date = DStr.pynone ∨
      ∃ s, r.last_contact_date = DStr.val s ∧ pyStrip s = "")
    (hd2 : r.created_date = DStr.absent ∨ r.created_date = DStr.pynone ∨
      ∃ s, r.created_date = DStr.val s ∧ pyStrip s = "")
    (hd3 : r.next_followup_date = DStr.absent ∨ r.next_followup_date = DStr.pynone ∨
      ∃ s, r.next_followup_date = DStr.val s ∧ pyStrip s = "") :
    updateContact api cid r =
      (Except.error (PyErr.valueError "No properties to update"),
        [RemoteCall.retrievePage]) := by
  have hmap := mapContactToNotion_blank r pg.properties hname h1 h2 h3 h4 h5 h6
    h7 h8 h9 h10 h11 h12 h13 hcc hd1 hd2 hd3
  simp [updateContact, hpg, hmap]

/-- Witness for C10 amended: the all-blank payload is rejected after one read
call. -/
theorem update_all_blank_rejected_witness :
    updateContact okOracle "B1" blankUpdate =
      (Except.error (PyErr.valueError "No properties to update"),
        [RemoteCall.retrievePage]) :=
  update_all_blank_rejected okOracle "B1" blankUpdate emptyPage rfl rfl
    (Or.inr (Or.inl rfl)) (Or.inl rfl) (Or.inl rfl) (Or.inl rfl) (Or.inl rfl)
    (Or.inl rfl) (Or.inl rfl) (Or.inl rfl) (Or.inl rfl) (Or.inl rfl)
    (Or.inl rfl) (Or.inr (Or.inr ⟨"   ", rfl, by decide⟩)) (Or.inl rfl)
    (Or.inl rfl) (Or.inl rfl) (Or.inl rfl) (Or.inl rfl)

/-! ### The retry loop of `get_all_contacts` (claim C6) -/

theorem retryLoop_succ {α : Type} (oracle : Nat → Except ApiError α) (a n : Nat) :
    retryLoop oracle a (n + 1) =
      match oracle a with
      | Except.ok r => (Except.ok r, [], 1)
      | Except.error e =>
        if n = 0 then (Except.error e, [], 1)
        else
          let rest := retryLoop oracle (a + 1) n
          (rest.1, (a + 1) :: rest.2.1, rest.2.2 + 1) := rfl

theorem range_map_shift (a m : Nat) :
    (List.range (m + 1)).map (fun i => a + i + 1) =
      (a + 1) :: (List.range m).map (fun i => (a + 1) + i + 1) := by
  rw [List.range_succ_eq_map, List.map_cons, List.map_map]
  congr 1
  apply List.map_congr_left
  intro x _
  simp [Function.comp]
  omega

theorem retryLoop_all_fail {α : Type} (oracle : Nat → Except ApiError α) :
    ∀ (n a : Nat), 0 < n → (∀ i, i < n → ∃ e, oracle (a + i) = Except.error e) →
      retryLoop oracle a n =
        (oracle (a + (n - 1)), (List.range (n - 1)).map (fun i => a + i + 1), n) := by
  intro n
  induction n with
  | zero => intro a h; omega
  | succ m ih =>
    intro a _ hf
    obtain ⟨e, he⟩ := hf 0 (Nat.succ_pos m)
    rw [Nat.add_zero] at he
    cases m with
    | zero =>
      rw [retryLoop_succ, he]
      simp [he]
    | succ m' =>
      have hf' : ∀ i, i < m' + 1 → ∃ e', oracle (a + 1 + i) = Except.error e' := by
        intro i hi
        obtain ⟨e', he'⟩ := hf (i + 1) (by omega)
        exact ⟨e', by rw [← he']; congr 1; omega⟩
      have hrest := ih (a + 1) (Nat.succ_pos m') hf'
      rw [retryLoop_succ, he]
      simp only [Nat.succ_ne_zero, if_false, hrest]
      refine congrArg₂ Prod.mk ?_ (congrArg₂ Prod.mk ?_ rfl)
      · congr 1
        omega
      · rw [show m' + 1 + 1 - 1 = m' + 1 from rfl, range_map_shift]
        simp

theorem retryLoop_first_ok {α : Type} (oracle : Nat → Except ApiError α) :
    ∀ (k a n : Nat) (r : α), k < n → oracle (a + k) = Except.ok r →
      (∀ i, i < k → ∃ e, oracle (a + i) = Except.error e) →
      retryLoop oracle a n =
        (Except.ok r, (List.range k).map (fun i => a + i + 1), k + 1) := by
  intro k
  induction k with
  | zero =>
    intro a n r hk hok _
    rw [Nat.add_zero] at hok
    cases n with
    | zero => omega
    | succ n' =>
      rw [retryLoop_succ, hok]
      rfl
  | succ m ih =>
    intro a n r hk hok hf
    obtain ⟨e, he⟩ := hf 0 (Nat.succ_pos m)
    rw [Nat.add_zero] at he
    cases n with
    | zero => omega
    | succ n' =>
      have hok' : oracle (a + 1 + m) = Except.ok r := by
        rw [← hok]
        congr 1
        omega
      have hf' : ∀ i, i < m → ∃ e', oracle (a + 1 + i) = Except.error e' := by
        intro i hi
        obtain ⟨e', he'⟩ := hf (i + 1) (by omega)
        exact ⟨e', by rw [← he']; congr 1; omega⟩
      have hrest := ih (a + 1) n' r (by omega) hok' hf'
      rw [retryLoop_succ, he]
      have hn' : ¬(n' = 0) := by omega
      simp only [hn', if_false, hrest]
      rw [range_map_shift]

/-- C6 counterexample: on a permanent authorization failure the retry loop of
`get_all_contacts` does not abort after the first attempt: it performs all 3
attempts, sleeping 1s and 2s in between, before propagating the error --
the `except` clause catches every exception, transient or not. -/
theorem permanent_failure_retried_counterexample :
    queryWithRetry authFailOracle 3 =
      (Except.error (ApiError.api "unauthorized" "API token is invalid"), [1, 2], 3) ∧
      ¬((queryWithRetry authFailOracle 3).2.2 = 1) :=
  ⟨rfl, by decide⟩

/-- C6 amended: each page fetch is retried on every failure (transient or
not) up to the fixed bound with linear backoff of `attempt` seconds between
attempts: if all `n` attempts fail, the call count is `n`, the sleeps are
`1, 2, ..., n-1` and the last error propagates; the loop stops at the first
success, with attempt `k` succeeding after `k` failures giving `k + 1` calls
and sleeps `1, ..., k`. -/
theorem retry_uniform_bounded_backoff :
    (∀ (α : Type) (oracle : Nat → Except ApiError α) (n : Nat), 0 < n →
      (∀ i, i < n → ∃ e, oracle i = Except.error e) →
      queryWithRetry oracle n =
        (oracle (n - 1), (List.range (n - 1)).map (fun i => i + 1), n)) ∧
    (∀ (α : Type) (oracle : Nat → Except ApiError α) (n k : Nat) (r : α), k < n →
      oracle k = Except.ok r → (∀ i, i < k → ∃ e, oracle i = Except.error e) →
      queryWithRetry oracle n =
        (Except.ok r, (List.range k).map (fun i => i + 1), k + 1)) := by
  constructor
  · intro α oracle n hn hf
    have h := retryLoop_all_fail oracle n 0 hn (fun i hi => by simpa using hf i hi)
    simpa [queryWithRetry] using h
  · intro α oracle n k r hk hok hf
    have h := retryLoop_first_ok oracle k 0 n r hk (by simpa using hok)
      (fun i hi => by simpa using hf i hi)
    simpa [queryWithRetry] using h

/-- Witness for C6 amended: one transient failure then success gives 2 calls
and one 1s backoff; a permanently failing query is attempted 3 times with
backoffs 1s, 2s. -/
theorem retry_uniform_bounded_backoff_witness :
    queryWithRetry transientThenOkOracle 3 = (Except.ok 7, [1], 2) ∧
      queryWithRetry authFailOracle 3 =
        (Except.error (ApiError.api "unauthorized" "API token is invalid"), [1, 2], 3) :=
  ⟨retry_uniform_bounded_backoff.2 Nat transientThenOkOracle 3 1 7 (by omega) rfl
      (fun i hi => ⟨ApiError.exn "timeout", by
        have h0 : i = 0 := by omega
        subst h0
        rfl⟩),
    retry_uniform_bounded_backoff.1 Nat authFailOracle 3 (by omega)
      (fun i _ => ⟨ApiError.api "unauthorized" "API token is invalid", rfl⟩)⟩
